import Mathlib

/-!
# TDS liability engine — verification of the specification's claims

Shallow embedding of the liability engine of `app.py` (the helpers
`calc_tds` and `calc_interest` inside `update_report_table`, shared
verbatim with `test_tds_interest.py`), together with proofs about it.

Modelling conventions:
* monetary amounts and rates are exact rationals (`ℚ`);
* Python's `round(x, 2)` is decimal rounding half-to-even to 2 places;
* `datetime` values are `Date` records compared through a numeric key,
  which agrees with `datetime` ordering on valid calendar dates;
* `datetime.strptime(str(s)[:10], '%Y-%m-%d')` is modelled on the first
  10 characters of the string, splitting at `-`, with each field matched
  exactly as CPython's `_strptime` regular expressions require:
  `%Y` is exactly four digits, `%m` is `1[0-2]|0[1-9]|[1-9]`, and `%d` is
  `3[0-1]|[1-2]\d|0[1-9]|[1-9]| [1-9]` (a space-padded single day digit is
  accepted); the `datetime` constructor's calendar checks (year 1–9999,
  month 1–12, day within the month) follow.  A `strptime` failure is
  caught by the bare `except` in `to_date` and becomes `none`;
* the `datetime(...)` constructor calls made *outside* `to_date`
  (the deadline and the fiscal year-end April dates) are **not** guarded
  by any `except`, so a year-10000 construction raises an uncaught
  `ValueError`.  The engine is therefore `Option`-valued: `none` models
  that uncaught exception, `some q` a returned interest figure;
* Python's `str.strip()` removes every Unicode whitespace character
  from both ends.
-/

namespace TdsAi

/-- A calendar date as produced by a successful `strptime` call or
`datetime` constructor. -/
structure Date where
  year : ℤ
  month : ℤ
  day : ℤ
deriving DecidableEq, Repr

/-- Numeric key realising `datetime` comparison on valid calendar dates. -/
def Date.key (d : Date) : ℤ := d.year * 10000 + d.month * 100 + d.day

def isLeapYear (y : ℤ) : Bool := (y % 4 == 0 && y % 100 != 0) || (y % 400 == 0)

def daysInMonth (y m : ℤ) : ℤ :=
  if m = 2 then (if isLeapYear y then 29 else 28)
  else if m = 4 ∨ m = 6 ∨ m = 9 ∨ m = 11 then 30
  else 31

/-- The `datetime(year, month, day)` constructor: `MINYEAR = 1`,
`MAXYEAR = 9999`, month and day validated against the calendar; out of
range raises `ValueError`, modelled as `none`. -/
def mkDatetime (y m d : ℤ) : Option Date :=
  if 1 ≤ y ∧ y ≤ 9999 ∧ 1 ≤ m ∧ m ≤ 12 ∧ 1 ≤ d ∧ d ≤ daysInMonth y m then
    some ⟨y, m, d⟩
  else none

/-- Split a character list at every `'-'` (the separators of `%Y-%m-%d`;
the directives themselves never match `'-'`, so a successful `strptime`
match makes each directive consume exactly one dash-separated segment). -/
def splitDash : List Char → List (List Char)
  | [] => [[]]
  | c :: cs =>
    if c = '-' then [] :: splitDash cs
    else
      match splitDash cs with
      | [] => [[c]]
      | g :: gs => (c :: g) :: gs

def digitVal (c : Char) : ℕ := c.toNat - '0'.toNat

/-- CPython `strptime` `%Y`: the regex `\d\d\d\d` — exactly four digits. -/
def parseYearField : List Char → Option ℕ
  | [a, b, c, d] =>
    if a.isDigit ∧ b.isDigit ∧ c.isDigit ∧ d.isDigit then
      some (1000 * digitVal a + 100 * digitVal b + 10 * digitVal c + digitVal d)
    else none
  | _ => none

/-- CPython `strptime` `%m`: the regex `1[0-2]|0[1-9]|[1-9]`, matching the
whole dash-separated segment. -/
def parseMonthField : List Char → Option ℕ
  | [a] => if '1' ≤ a ∧ a ≤ '9' then some (digitVal a) else none
  | [a, b] =>
    if a = '1' ∧ ('0' ≤ b ∧ b ≤ '2') then some (10 + digitVal b)
    else if a = '0' ∧ ('1' ≤ b ∧ b ≤ '9') then some (digitVal b)
    else none
  | _ => none

/-- CPython `strptime` `%d`: the regex `3[0-1]|[1-2]\d|0[1-9]|[1-9]| [1-9]`
(note the space-padded single digit), matching the whole segment. -/
def parseDayField : List Char → Option ℕ
  | [a] => if '1' ≤ a ∧ a ≤ '9' then some (digitVal a) else none
  | [a, b] =>
    if a = '3' ∧ ('0' ≤ b ∧ b ≤ '1') then some (30 + digitVal b)
    else if ('1' ≤ a ∧ a ≤ '2') ∧ b.isDigit then some (10 * digitVal a + digitVal b)
    else if a = '0' ∧ ('1' ≤ b ∧ b ≤ '9') then some (digitVal b)
    else if a = ' ' ∧ ('1' ≤ b ∧ b ≤ '9') then some (digitVal b)
    else none
  | _ => none

/-- `to_date` from `app.py`: `datetime.strptime(str(s)[:10], '%Y-%m-%d')`
with any parse or constructor failure caught by the bare `except` and
returned as `none`. -/
def to_date (s : String) : Option Date :=
  match splitDash (s.data.take 10) with
  | [ys, ms, ds] =>
    match parseYearField ys, parseMonthField ms, parseDayField ds with
    | some y, some m, some d => mkDatetime (y : ℤ) (m : ℤ) (d : ℤ)
    | _, _, _ => none
  | _ => none

/-- One transaction row: a numeric principal, the section code and the
three raw date strings, as consumed by `calc_tds`/`calc_interest`. -/
structure Row where
  principal_amount : ℚ
  tax_code_section : String
  date_of_transaction : String
  date_of_tax_deduction : String
  date_of_tax_payment : String

/-- The static section-rate mapping loaded from `sections.json`. -/
abbrev SectionMap := List (String × ℚ)

/-- Unicode whitespace as Python's `str.isspace` recognises it:
U+0009–U+000D, U+001C–U+001F, space, U+0085, U+00A0, U+1680,
U+2000–U+200A, U+2028, U+2029, U+202F, U+205F, U+3000. -/
def isPySpace (c : Char) : Bool :=
  (9 ≤ c.toNat && c.toNat ≤ 13) || (28 ≤ c.toNat && c.toNat ≤ 32) ||
    c.toNat == 133 || c.toNat == 160 || c.toNat == 5760 ||
    (8192 ≤ c.toNat && c.toNat ≤ 8202) || c.toNat == 8232 || c.toNat == 8233 ||
    c.toNat == 8239 || c.toNat == 8287 || c.toNat == 12288

/-- Python's `str.strip()`: drop Unicode whitespace from both ends. -/
def pyStrip (s : String) : String :=
  ⟨((s.data.dropWhile isPySpace).reverse.dropWhile isPySpace).reverse⟩

/-- `SECTION_MAP.get(str(section).strip(), 0)`. -/
def rate_for (sm : SectionMap) (sec : String) : ℚ :=
  (sm.lookup (pyStrip sec)).getD 0

/-- `calc_tds` from `update_report_table`:
`float(row['principal_amount']) * SECTION_MAP.get(str(row['tax_code_section']).strip(), 0)`. -/
def calc_tds (sm : SectionMap) (row : Row) : ℚ :=
  row.principal_amount * rate_for sm row.tax_code_section

/-- Decimal rounding half-to-even to an integer, as Python's `round`. -/
def roundHalfEven (q : ℚ) : ℤ :=
  if q - ⌊q⌋ < 1 / 2 then ⌊q⌋
  else if 1 / 2 < q - ⌊q⌋ then ⌊q⌋ + 1
  else if ⌊q⌋ % 2 = 0 then ⌊q⌋ else ⌊q⌋ + 1

/-- Python's `round(q, 2)`. -/
def round2 (q : ℚ) : ℚ := (roundHalfEven (q * 100) : ℚ) / 100

/-- The calendar shape of `datetime(deadline_year, deadline_month, 7)`:
the 7th of the month after the transaction month, rolling December into
January.  Constructing it as a `datetime` raises iff its year is out of
range, i.e. exactly for a December-9999 transaction. -/
def deadlineOf (t : Date) : Date :=
  ⟨if t.month < 12 then t.year else t.year + 1, if t.month < 12 then t.month + 1 else 1, 7⟩

/-- Body of `calc_interest` once the three dates have parsed (`app.py`
lines 311–346); `tds = principal * rate_for sm sec` is inlined, and every
unguarded `datetime(...)` call goes through `mkDatetime`, whose `none`
(an uncaught `ValueError`) aborts the computation. -/
def calc_interest_dates (sm : SectionMap) (principal : ℚ) (sec : String)
    (dt_trans dt_deduct dt_pay : Date) : Option ℚ :=
  match mkDatetime (if dt_trans.month < 12 then dt_trans.year else dt_trans.year + 1)
      (if dt_trans.month < 12 then dt_trans.month + 1 else 1) 7 with
  | none => none
  | some deadline =>
    if dt_pay.key ≤ deadline.key then some 0
    else if dt_deduct.month = 3 ∧ dt_deduct.day = 31 then
      match mkDatetime (dt_deduct.year + 1) 4 1 with
      | none => none
      | some dt_deduct2 =>
        match mkDatetime dt_deduct2.year 4 30 with
        | none => none
        | some apr30 =>
          if dt_pay.key ≤ apr30.key then
            some (round2 (principal * rate_for sm sec * (1 / 100) * 2))
          else
            some (round2 (principal * rate_for sm sec * (1 / 100) * 2 +
              principal * rate_for sm sec * (3 / 200) *
                (((dt_pay.year - dt_deduct2.year) * 12 + (dt_pay.month - 4) + 1 : ℤ) : ℚ)))
    else
      some (round2 (principal * rate_for sm sec * (1 / 100) *
          ((max ((dt_deduct.year - dt_trans.year) * 12 + (dt_deduct.month - dt_trans.month)) 0 : ℤ) : ℚ) +
        principal * rate_for sm sec * (3 / 200) *
          ((max ((dt_pay.year - dt_deduct.year) * 12 + (dt_pay.month - dt_deduct.month) + 1) 0 : ℤ) : ℚ)))

/-- `calc_interest` from `update_report_table`: missing or unparseable
dates short-circuit to `0.0`; fully parsed dates run the decision tree,
which may raise (`none`). -/
def calc_interest (sm : SectionMap) (row : Row) : Option ℚ :=
  match to_date row.date_of_transaction, to_date row.date_of_tax_deduction,
      to_date row.date_of_tax_payment with
  | some t, some dd, some p =>
    calc_interest_dates sm row.principal_amount row.tax_code_section t dd p
  | _, _, _ => some 0

/-- One computed report row. -/
structure LiabilityResult where
  tds : ℚ
  interest : ℚ
  total : ℚ
deriving DecidableEq, Repr

/-- One row of the report produced by `update_report_table`: `TDS`,
`Interest` and `Total Payment = TDS + Interest`; an exception in
`calc_interest` propagates (`none`). -/
def compute (sm : SectionMap) (row : Row) : Option LiabilityResult :=
  match calc_interest sm row with
  | none => none
  | some i => some ⟨calc_tds sm row, i, calc_tds sm row + i⟩

/-- Rate-table fragment exercised by the repository's tests:
section `94A` withholds 10%. -/
def SM_TEST : SectionMap := [("94A", 1 / 10)]

/-- A date `to_date`/`mkDatetime` can produce. -/
def dateValid (d : Date) : Prop :=
  1 ≤ d.year ∧ d.year ≤ 9999 ∧ 1 ≤ d.month ∧ d.month ≤ 12 ∧ 1 ≤ d.day ∧ d.day ≤ 31

instance decDateValid (d : Date) : Decidable (dateValid d) := by
  unfold dateValid
  infer_instance

-- Concrete rows used by the individual claims.

def rowC1 : Row := ⟨150000, "94A", "2025-02-10", "2025-03-31", "2025-06-01"⟩
def rowC4 : Row := ⟨150000, "94A", "2025-02-10", "2025-03-31", "2025-03-07"⟩
def rowC4x : Row := ⟨150000, "94A", "9999-12-05", "2025-01-01", "9999-12-20"⟩
def rowC5 : Row := ⟨150000, "94A", "2025-02-10", "2025-02-25", "2025-03-08"⟩
def rowC6 : Row := ⟨123456, "86X", "2025-01-01", "2025-01-02", "2025-01-03"⟩
def rowC8w : Row := ⟨5000, "94A", "zz", "2025-01-01", "2025-01-02"⟩
def rowC8x : Row := ⟨100000, "94A", "9999-12-05", "2025-03-01", "2025-03-02"⟩
def rowC9a : Row := ⟨77, "94A", "2025-01-01", "2025-01-02", "2025-01-03"⟩
def rowC9b : Row := ⟨77, "94A", "", "totally broken", "2026-09-09"⟩
def rowC10a : Row := ⟨150000, "94A", "2025-02-10", "2025-02-25", "2025-03-08"⟩
def rowC10b : Row := ⟨150000, "94A", "2025-02-10", "2025-02-25", "2025-05-10"⟩
def rowC10x1 : Row := ⟨150000, "94A", "9999-12-05", "2025-02-25", "9999-12-10"⟩
def rowC10x2 : Row := ⟨150000, "94A", "9999-12-05", "2025-02-25", "9999-12-20"⟩

/-! ## Helper lemmas -/

lemma daysInMonth_le_31 (y m : ℤ) : daysInMonth y m ≤ 31 := by
  unfold daysInMonth
  split_ifs <;> norm_num

lemma daysInMonth_ge_28 (y m : ℤ) : 28 ≤ daysInMonth y m := by
  unfold daysInMonth
  split_ifs <;> norm_num

lemma mkDatetime_some {y m d : ℤ}
    (h : 1 ≤ y ∧ y ≤ 9999 ∧ 1 ≤ m ∧ m ≤ 12 ∧ 1 ≤ d ∧ d ≤ daysInMonth y m) :
    mkDatetime y m d = some ⟨y, m, d⟩ := by
  unfold mkDatetime
  rw [if_pos h]

lemma mkDatetime_valid {y m d : ℤ} {dt : Date} (h : mkDatetime y m d = some dt) :
    dateValid dt := by
  unfold mkDatetime at h
  split at h
  · rename_i hc
    cases h
    have h31 := daysInMonth_le_31 y m
    obtain ⟨c1, c2, c3, c4, c5, c6⟩ := hc
    exact ⟨c1, c2, c3, c4, c5, le_trans c6 h31⟩
  · exact Option.noConfusion h

/-- Any date that `to_date` produces is a valid calendar date. -/
lemma to_date_valid {s : String} {d : Date} (h : to_date s = some d) : dateValid d := by
  unfold to_date at h
  split at h
  · split at h
    · exact mkDatetime_valid h
    · exact Option.noConfusion h
  · exact Option.noConfusion h

/-- If any of the three dates fails to parse, `calc_interest` is `some 0`. -/
lemma calc_interest_of_none (sm : SectionMap) (row : Row)
    (h : to_date row.date_of_transaction = none ∨ to_date row.date_of_tax_deduction = none ∨
      to_date row.date_of_tax_payment = none) :
    calc_interest sm row = some 0 := by
  unfold calc_interest
  rcases h with h | h | h <;> rw [h] <;>
    rcases to_date row.date_of_transaction with _ | t <;>
    rcases to_date row.date_of_tax_deduction with _ | dd <;>
    rcases to_date row.date_of_tax_payment with _ | p <;> rfl

/-- When all three dates parse, `calc_interest` is the date-level body. -/
lemma calc_interest_parsed {sm : SectionMap} {row : Row} {t dd p : Date}
    (ht : to_date row.date_of_transaction = some t)
    (hd : to_date row.date_of_tax_deduction = some dd)
    (hp : to_date row.date_of_tax_payment = some p) :
    calc_interest sm row =
      calc_interest_dates sm row.principal_amount row.tax_code_section t dd p := by
  unfold calc_interest
  rw [ht, hd, hp]

/-- Every successful `compute` output satisfies `total = tds + interest`. -/
lemma compute_total {sm : SectionMap} {row : Row} {res : LiabilityResult}
    (h : compute sm row = some res) : res.total = res.tds + res.interest := by
  unfold compute at h
  split at h
  · exact Option.noConfusion h
  · cases h
    rfl

/-- Constructing the deadline succeeds (with the value `deadlineOf t`)
for every valid transaction date outside December 9999. -/
lemma deadline_some {t : Date} (hv : dateValid t) (hne : ¬(t.month = 12 ∧ t.year = 9999)) :
    mkDatetime (if t.month < 12 then t.year else t.year + 1)
      (if t.month < 12 then t.month + 1 else 1) 7 = some (deadlineOf t) := by
  obtain ⟨y1, y2, m1, m2, d1, d2⟩ := hv
  unfold deadlineOf
  by_cases hm : t.month < 12
  · simp only [if_pos hm]
    apply mkDatetime_some
    have h28 := daysInMonth_ge_28 t.year (t.month + 1)
    exact ⟨y1, y2, by omega, by omega, by norm_num, by omega⟩
  · have hm12 : t.month = 12 := by omega
    have hy : t.year ≠ 9999 := fun hy => hne ⟨hm12, hy⟩
    simp only [if_neg hm]
    apply mkDatetime_some
    have h28 := daysInMonth_ge_28 (t.year + 1) 1
    exact ⟨by omega, by omega, by norm_num, by norm_num, by norm_num, by omega⟩

/-- A late payment forces the transaction outside December 9999: the
December-9999 deadline shape is 10000-01-07, after every valid payment. -/
lemma not_dec9999_of_late {t p : Date} (hv_p : dateValid p)
    (hlate : ¬p.key ≤ (deadlineOf t).key) : ¬(t.month = 12 ∧ t.year = 9999) := by
  rintro ⟨h1, h2⟩
  apply hlate
  obtain ⟨p1, p2, p3, p4, p5, p6⟩ := hv_p
  unfold deadlineOf Date.key
  rw [h1, h2]
  norm_num
  omega

/-- On-time branch: payment on or before the deadline gives interest 0. -/
lemma calc_interest_dates_ontime {sm : SectionMap} {principal : ℚ} {sec : String}
    {t dd p : Date} (hv : dateValid t) (hne : ¬(t.month = 12 ∧ t.year = 9999))
    (hON : p.key ≤ (deadlineOf t).key) :
    calc_interest_dates sm principal sec t dd p = some 0 := by
  unfold calc_interest_dates
  simp only [deadline_some hv hne]
  rw [if_pos hON]

/-- General branch: late payment, deduction not March 31. -/
lemma calc_interest_dates_general {sm : SectionMap} {principal : ℚ} {sec : String}
    {t dd p : Date} (hv_t : dateValid t) (hv_p : dateValid p)
    (hlate : ¬p.key ≤ (deadlineOf t).key)
    (hnot : ¬(dd.month = 3 ∧ dd.day = 31)) :
    calc_interest_dates sm principal sec t dd p =
      some (round2 (principal * rate_for sm sec * (1 / 100) *
          ((max ((dd.year - t.year) * 12 + (dd.month - t.month)) 0 : ℤ) : ℚ) +
        principal * rate_for sm sec * (3 / 200) *
          ((max ((p.year - dd.year) * 12 + (p.month - dd.month) + 1) 0 : ℤ) : ℚ))) := by
  have hne := not_dec9999_of_late hv_p hlate
  unfold calc_interest_dates
  simp only [deadline_some hv_t hne]
  rw [if_neg hlate, if_neg hnot]

/-- Year-end branch, for deduction years whose successor is in range. -/
lemma calc_interest_dates_year_end {sm : SectionMap} {principal : ℚ} {sec : String}
    {t dd p : Date} (hv_t : dateValid t) (hv_dd : dateValid dd) (hv_p : dateValid p)
    (hlate : ¬p.key ≤ (deadlineOf t).key)
    (hye : dd.month = 3 ∧ dd.day = 31) (hyy : dd.year ≠ 9999) :
    calc_interest_dates sm principal sec t dd p =
      if p.key ≤ (Date.mk (dd.year + 1) 4 30).key then
        some (round2 (principal * rate_for sm sec * (1 / 100) * 2))
      else
        some (round2 (principal * rate_for sm sec * (1 / 100) * 2 +
          principal * rate_for sm sec * (3 / 200) *
            (((p.year - (dd.year + 1)) * 12 + (p.month - 4) + 1 : ℤ) : ℚ))) := by
  have hne := not_dec9999_of_late hv_p hlate
  obtain ⟨dy1, dy2, -, -, -, -⟩ := hv_dd
  have hd30 : (30 : ℤ) ≤ daysInMonth (dd.year + 1) 4 := by
    have := daysInMonth_ge_28 (dd.year + 1) 4
    unfold daysInMonth at *
    norm_num
  have h1 : mkDatetime (dd.year + 1) 4 1 = some ⟨dd.year + 1, 4, 1⟩ :=
    mkDatetime_some ⟨by omega, by omega, by norm_num, by norm_num, by norm_num,
      by omega⟩
  have h2 : mkDatetime (dd.year + 1) 4 30 = some ⟨dd.year + 1, 4, 30⟩ :=
    mkDatetime_some ⟨by omega, by omega, by norm_num, by norm_num, by norm_num, hd30⟩
  unfold calc_interest_dates
  simp only [deadline_some hv_t hne]
  rw [if_neg hlate, if_pos hye]
  simp only [h1, h2]

/-- Crash-free branch collapse: if the year-end construction is passed a
valid deduction date at year 9999, the engine aborts. -/
lemma calc_interest_dates_year_end_crash {sm : SectionMap} {principal : ℚ} {sec : String}
    {t dd p : Date} (hv_t : dateValid t) (hv_p : dateValid p)
    (hlate : ¬p.key ≤ (deadlineOf t).key)
    (hye : dd.month = 3 ∧ dd.day = 31) (hyy : dd.year = 9999) :
    calc_interest_dates sm principal sec t dd p = none := by
  have hne := not_dec9999_of_late hv_p hlate
  have h1 : mkDatetime (dd.year + 1) 4 1 = none := by
    unfold mkDatetime
    rw [if_neg]
    rw [hyy]
    norm_num
  unfold calc_interest_dates
  simp only [deadline_some hv_t hne]
  rw [if_neg hlate, if_pos hye]
  simp only [h1]

lemma round2_intCast (n : ℤ) : round2 (n : ℚ) = n := by
  unfold round2 roundHalfEven
  have h1 : ((n : ℚ) * 100) = ((n * 100 : ℤ) : ℚ) := by push_cast; ring
  rw [h1, Int.floor_intCast]
  norm_num

lemma roundHalfEven_ge_floor (q : ℚ) : ⌊q⌋ ≤ roundHalfEven q := by
  unfold roundHalfEven
  split_ifs <;> omega

lemma roundHalfEven_le_floor_add_one (q : ℚ) : roundHalfEven q ≤ ⌊q⌋ + 1 := by
  unfold roundHalfEven
  split_ifs <;> omega

lemma roundHalfEven_mono {a b : ℚ} (hab : a ≤ b) : roundHalfEven a ≤ roundHalfEven b := by
  rcases lt_or_le ⌊a⌋ ⌊b⌋ with hf | hf
  · have h1 := roundHalfEven_le_floor_add_one a
    have h2 := roundHalfEven_ge_floor b
    omega
  · have hfe : ⌊a⌋ = ⌊b⌋ := le_antisymm (Int.floor_le_floor hab) hf
    have hfa := Int.floor_le a
    have hfb := Int.lt_floor_add_one b
    unfold roundHalfEven
    rw [hfe]
    split_ifs <;> first | omega | linarith

lemma round2_mono {a b : ℚ} (hab : a ≤ b) : round2 a ≤ round2 b := by
  unfold round2
  have h : roundHalfEven (a * 100) ≤ roundHalfEven (b * 100) :=
    roundHalfEven_mono (by linarith)
  have h2 : ((roundHalfEven (a * 100) : ℤ) : ℚ) ≤ ((roundHalfEven (b * 100) : ℤ) : ℚ) := by
    exact_mod_cast h
  linarith

lemma round2_nonneg {q : ℚ} (hq : 0 ≤ q) : 0 ≤ round2 q := by
  unfold round2
  have h0 : (0 : ℤ) ≤ ⌊q * 100⌋ := Int.floor_nonneg.mpr (by linarith)
  have h1 := roundHalfEven_ge_floor (q * 100)
  have h2 : ((0 : ℤ) : ℚ) ≤ ((roundHalfEven (q * 100) : ℤ) : ℚ) := by
    exact_mod_cast le_trans h0 h1
  simp only [Int.cast_zero] at h2
  linarith

/-- On valid calendar dates the key order refines the (year, month) order. -/
lemma month_index_mono {d1 d2 : Date} (h1 : dateValid d1) (h2 : dateValid d2)
    (hk : d1.key ≤ d2.key) : d1.year * 12 + d1.month ≤ d2.year * 12 + d2.month := by
  obtain ⟨a0, a1, a2, a3, a4, a5⟩ := h1
  obtain ⟨b0, b1, b2, b3, b4, b5⟩ := h2
  unfold Date.key at hk
  omega

/-- The general-case accrual expression is nonneg when the tds is. -/
lemma general_expr_nonneg (sm : SectionMap) (principal : ℚ) (sec : String)
    (t dd p : Date) (htds : 0 ≤ principal * rate_for sm sec) :
    0 ≤ principal * rate_for sm sec * (1 / 100) *
        ((max ((dd.year - t.year) * 12 + (dd.month - t.month)) 0 : ℤ) : ℚ) +
      principal * rate_for sm sec * (3 / 200) *
        ((max ((p.year - dd.year) * 12 + (p.month - dd.month) + 1) 0 : ℤ) : ℚ) := by
  have c1 : 0 ≤ principal * rate_for sm sec * (1 / 100) := mul_nonneg htds (by norm_num)
  have c2 : 0 ≤ principal * rate_for sm sec * (3 / 200) := mul_nonneg htds (by norm_num)
  have m1 : (0 : ℚ) ≤ ((max ((dd.year - t.year) * 12 + (dd.month - t.month)) 0 : ℤ) : ℚ) := by
    exact_mod_cast le_max_right _ _
  have m2 : (0 : ℚ) ≤
      ((max ((p.year - dd.year) * 12 + (p.month - dd.month) + 1) 0 : ℤ) : ℚ) := by
    exact_mod_cast le_max_right _ _
  exact add_nonneg (mul_nonneg c1 m1) (mul_nonneg c2 m2)

/-- Shape of every value the date-level decision tree can return:
an exact 0 or a 2-decimal rounding. -/
lemma calc_interest_dates_some_shape {sm : SectionMap} {principal : ℚ} {sec : String}
    {t dd p : Date} {q : ℚ}
    (h : calc_interest_dates sm principal sec t dd p = some q) :
    q = 0 ∨ ∃ x : ℚ, q = round2 x := by
  unfold calc_interest_dates at h
  split at h
  · exact Option.noConfusion h
  · split_ifs at h with h1 h2
    · injection h with h
      exact Or.inl h.symm
    · split at h
      · exact Option.noConfusion h
      · split at h
        · exact Option.noConfusion h
        · split_ifs at h with h3
          · injection h with h
            exact Or.inr ⟨_, h.symm⟩
          · injection h with h
            exact Or.inr ⟨_, h.symm⟩
    · injection h with h
      exact Or.inr ⟨_, h.symm⟩

/-- Shape of every value `calc_interest` can return. -/
lemma calc_interest_some_shape {sm : SectionMap} {row : Row} {q : ℚ}
    (h : calc_interest sm row = some q) : q = 0 ∨ ∃ x : ℚ, q = round2 x := by
  rcases h1 : to_date row.date_of_transaction with _ | t
  · rw [calc_interest_of_none sm row (Or.inl h1)] at h
    injection h with h
    exact Or.inl h.symm
  rcases h2 : to_date row.date_of_tax_deduction with _ | dd
  · rw [calc_interest_of_none sm row (Or.inr (Or.inl h2))] at h
    injection h with h
    exact Or.inl h.symm
  rcases h3 : to_date row.date_of_tax_payment with _ | p
  · rw [calc_interest_of_none sm row (Or.inr (Or.inr h3))] at h
    injection h with h
    exact Or.inl h.symm
  rw [@calc_interest_parsed sm row t dd p h1 h2 h3] at h
  exact calc_interest_dates_some_shape h

/-! ## Claims -/

/-- Claim C1 (the code contradicts its own test): for the literal scenario
with principal 150000, section rate 10% (tds 15000), transaction 2025-02-10,
deduction 2025-03-31 and payment 2025-06-01, the claim (and the repository's
test `test_year_end_paid_after_apr30`) says the interest is 975.00, but the
code advances the deduction year to `year + 1` (2026) and therefore compares
the payment against 2026-04-30, lands in the early year-end branch and
returns 300.00. -/
theorem c1_year_end_late_scenario :
    calc_interest SM_TEST rowC1 = some 300 ∧ calc_interest SM_TEST rowC1 ≠ some 975 := by
  have he : calc_interest SM_TEST rowC1 = some 300 := by
    rw [@calc_interest_parsed SM_TEST rowC1 ⟨2025, 2, 10⟩ ⟨2025, 3, 31⟩ ⟨2025, 6, 1⟩
      (by decide) (by decide) (by decide)]
    rw [calc_interest_dates_year_end (by decide) (by decide) (by decide) (by decide)
      ⟨rfl, rfl⟩ (by decide)]
    rw [if_pos (by decide)]
    rw [show rate_for SM_TEST rowC1.tax_code_section = 1 / 10 from rfl,
      show rowC1.principal_amount = (150000 : ℚ) from rfl]
    rw [show (150000 : ℚ) * (1 / 10) * (1 / 100) * 2 = ((300 : ℤ) : ℚ) from by norm_num]
    rw [round2_intCast]
    norm_num
  refine ⟨he, fun hc => ?_⟩
  rw [he] at hc
  injection hc with hc
  norm_num at hc

/-- Claim C4 is refuted at the MAXYEAR edge inside its scope: for
transaction 9999-12-05 the deadline is January 7 of year 10000, and for
payment 9999-12-20 — on or before that rolled deadline — the code raises an
uncaught `ValueError` at `datetime(10000, 1, 7)` instead of returning
interest 0 and total = tds. -/
theorem c4_maxyear_counterexample :
    to_date rowC4x.date_of_transaction = some ⟨9999, 12, 5⟩ ∧
      to_date rowC4x.date_of_tax_deduction = some ⟨2025, 1, 1⟩ ∧
      to_date rowC4x.date_of_tax_payment = some ⟨9999, 12, 20⟩ ∧
      (Date.mk 9999 12 20).key ≤ (deadlineOf ⟨9999, 12, 5⟩).key ∧
      calc_interest SM_TEST rowC4x = none := by
  decide

/-- Claim C4 (amended with the proviso the counterexample forces: the
transaction is not in December 9999, where the deadline construction
`datetime(10000, 1, 7)` raises): with all three dates parsed, a payment on
or before the 7th of the month after the transaction month (December
rolling into January) gives interest 0 and total equal to the tds,
regardless of the deduction date (the witness uses a March-31 deduction). -/
theorem c4_on_time_zero_interest (sm : SectionMap) (row : Row) (t dd p : Date)
    (ht : to_date row.date_of_transaction = some t)
    (hd : to_date row.date_of_tax_deduction = some dd)
    (hp : to_date row.date_of_tax_payment = some p)
    (hne : ¬(t.month = 12 ∧ t.year = 9999))
    (hON : p.key ≤ (deadlineOf t).key) :
    calc_interest sm row = some 0 ∧
      compute sm row = some ⟨calc_tds sm row, 0, calc_tds sm row⟩ := by
  have hv_t := to_date_valid ht
  have hi : calc_interest sm row = some 0 := by
    rw [@calc_interest_parsed sm row t dd p ht hd hp]
    exact calc_interest_dates_ontime hv_t hne hON
  refine ⟨hi, ?_⟩
  unfold compute
  simp only [hi]
  rw [add_zero]

theorem c4_on_time_zero_interest_witness :
    calc_interest SM_TEST rowC4 = some 0 ∧
      compute SM_TEST rowC4 = some ⟨calc_tds SM_TEST rowC4, 0, calc_tds SM_TEST rowC4⟩ :=
  c4_on_time_zero_interest SM_TEST rowC4 ⟨2025, 2, 10⟩ ⟨2025, 3, 31⟩ ⟨2025, 3, 7⟩
    (by decide) (by decide) (by decide) (by decide) (by decide)

/-- Claim C5: with all three dates parsed, the payment after the deadline
and the deduction not March 31, the interest is
`tds*0.01*months_lower + tds*0.015*months_higher` rounded to 2 decimals,
with both month counts floored at 0, and every produced total is
tds + interest.  (A December-9999 transaction cannot satisfy the
late-payment hypothesis: no parseable payment exceeds the 10000-01-07
deadline shape, so the crash rows lie outside this claim's scope.) -/
theorem c5_general_case (sm : SectionMap) (row : Row) (t dd p : Date)
    (ht : to_date row.date_of_transaction = some t)
    (hd : to_date row.date_of_tax_deduction = some dd)
    (hp : to_date row.date_of_tax_payment = some p)
    (hlate : ¬p.key ≤ (deadlineOf t).key)
    (hnot : ¬(dd.month = 3 ∧ dd.day = 31)) :
    calc_interest sm row =
      some (round2 (calc_tds sm row * (1 / 100) *
          ((max ((dd.year - t.year) * 12 + (dd.month - t.month)) 0 : ℤ) : ℚ) +
        calc_tds sm row * (3 / 200) *
          ((max ((p.year - dd.year) * 12 + (p.month - dd.month) + 1) 0 : ℤ) : ℚ))) ∧
      ∀ res : LiabilityResult, compute sm row = some res → res.total = res.tds + res.interest := by
  refine ⟨?_, fun res hres => compute_total hres⟩
  rw [@calc_interest_parsed sm row t dd p ht hd hp]
  exact calc_interest_dates_general (to_date_valid ht) (to_date_valid hp) hlate hnot

theorem c5_general_case_witness :
    calc_interest SM_TEST rowC5 =
      some (round2 (calc_tds SM_TEST rowC5 * (1 / 100) *
          ((max ((2025 - 2025) * 12 + (2 - 2)) 0 : ℤ) : ℚ) +
        calc_tds SM_TEST rowC5 * (3 / 200) *
          ((max ((2025 - 2025) * 12 + (3 - 2) + 1) 0 : ℤ) : ℚ))) ∧
      ∀ res : LiabilityResult, compute SM_TEST rowC5 = some res →
        res.total = res.tds + res.interest :=
  c5_general_case SM_TEST rowC5 ⟨2025, 2, 10⟩ ⟨2025, 2, 25⟩ ⟨2025, 3, 8⟩
    (by decide) (by decide) (by decide) (by decide) (by decide)

/-- Claim C6: the rate lookup strips surrounding (Unicode) whitespace from
the section code and matches the stored keys exactly; a matched key returns
its configured rate, an unknown key returns 0 without an error, and an
unknown key forces `calc_tds` to 0 regardless of the principal. -/
theorem c6_rate_lookup (sm : SectionMap) (row : Row) :
    (∀ r : ℚ, sm.lookup (pyStrip row.tax_code_section) = some r →
      rate_for sm row.tax_code_section = r) ∧
    (sm.lookup (pyStrip row.tax_code_section) = none →
      rate_for sm row.tax_code_section = 0 ∧ calc_tds sm row = 0) := by
  constructor
  · intro r hr
    unfold rate_for
    rw [hr]
    rfl
  · intro hn
    have h0 : rate_for sm row.tax_code_section = 0 := by
      unfold rate_for
      rw [hn]
      rfl
    exact ⟨h0, by unfold calc_tds; rw [h0, mul_zero]⟩

theorem c6_rate_lookup_witness :
    rate_for SM_TEST " 94A\x0B" = 1 / 10 ∧ rate_for SM_TEST rowC6.tax_code_section = 0 ∧
      calc_tds SM_TEST rowC6 = 0 :=
  ⟨(c6_rate_lookup SM_TEST ⟨0, " 94A\x0B", "", "", ""⟩).1 (1 / 10) rfl,
    ((c6_rate_lookup SM_TEST rowC6).2 rfl).1, ((c6_rate_lookup SM_TEST rowC6).2 rfl).2⟩

/-- Claim C8 is refuted on the "on every invocation" scope: at a
December-9999 transaction with ordinary deduction and payment dates the
code raises and produces no interest output at all (and the whole report
row is lost), so there is no rounded figure for that invocation. -/
theorem c8_no_output_counterexample :
    to_date rowC8x.date_of_transaction = some ⟨9999, 12, 5⟩ ∧
      to_date rowC8x.date_of_tax_deduction = some ⟨2025, 3, 1⟩ ∧
      to_date rowC8x.date_of_tax_payment = some ⟨2025, 3, 2⟩ ∧
      calc_interest SM_TEST rowC8x = none ∧ compute SM_TEST rowC8x = none := by
  decide

/-- Claim C8 (amended with the proviso the counterexample forces: on every
invocation *that produces an output*): every interest value the engine
returns is an exact 0 or `round2` of the accrual formula — in particular a
whole number of hundredths — while the tds output is the unrounded raw
product `principal * rate`. -/
theorem c8_rounding (sm : SectionMap) (row : Row) (q : ℚ)
    (h : calc_interest sm row = some q) :
    (∃ n : ℤ, q = (n : ℚ) / 100) ∧ (q = 0 ∨ ∃ x : ℚ, q = round2 x) ∧
      calc_tds sm row = row.principal_amount * rate_for sm row.tax_code_section := by
  have hs := calc_interest_some_shape h
  refine ⟨?_, hs, rfl⟩
  rcases hs with h0 | ⟨x, hx⟩
  · exact ⟨0, by rw [h0]; norm_num⟩
  · exact ⟨roundHalfEven (x * 100), by rw [hx]; rfl⟩

theorem c8_rounding_witness :
    (∃ n : ℤ, (0 : ℚ) = (n : ℚ) / 100) ∧ ((0 : ℚ) = 0 ∨ ∃ x : ℚ, (0 : ℚ) = round2 x) ∧
      calc_tds SM_TEST rowC8w =
        rowC8w.principal_amount * rate_for SM_TEST rowC8w.tax_code_section :=
  c8_rounding SM_TEST rowC8w 0 (calc_interest_of_none SM_TEST rowC8w (Or.inl (by decide)))

/-- Claim C9: the tds output depends only on the principal and the section
code; two records agreeing on those — whatever their date strings,
parseable or not — get identical tds. -/
theorem c9_tds_independent_of_dates (sm : SectionMap) (r1 r2 : Row)
    (hp : r1.principal_amount = r2.principal_amount)
    (hs : r1.tax_code_section = r2.tax_code_section) :
    calc_tds sm r1 = calc_tds sm r2 := by
  unfold calc_tds
  rw [hp, hs]

theorem c9_tds_independent_of_dates_witness :
    calc_tds SM_TEST rowC9a = calc_tds SM_TEST rowC9b :=
  c9_tds_independent_of_dates SM_TEST rowC9a rowC9b rfl rfl

/-- Claim C10 is refuted on its stated scope: two records with transaction
9999-12-05, a non-March-31 deduction and parseable payments 9999-12-10 and
9999-12-20 both make the code raise at `datetime(10000, 1, 7)`, so the
later-payment record yields no interest at all rather than a greater-or-
equal one. -/
theorem c10_maxyear_counterexample :
    to_date rowC10x1.date_of_transaction = some ⟨9999, 12, 5⟩ ∧
      to_date rowC10x1.date_of_tax_deduction = some ⟨2025, 2, 25⟩ ∧
      to_date rowC10x1.date_of_tax_payment = some ⟨9999, 12, 10⟩ ∧
      to_date rowC10x2.date_of_tax_payment = some ⟨9999, 12, 20⟩ ∧
      ¬((Date.mk 2025 2 25).month = 3 ∧ (Date.mk 2025 2 25).day = 31) ∧
      (Date.mk 9999 12 10).key ≤ (Date.mk 9999 12 20).key ∧
      calc_interest SM_TEST rowC10x1 = none ∧ calc_interest SM_TEST rowC10x2 = none := by
  decide

/-- Claim C10 (amended with the proviso the counterexample forces: the
transaction is not in December 9999, where the code raises for every
payment): for a fixed transaction date and a fixed non-March-31 deduction
date, with nonnegative principal and section rate, both records produce an
interest value, the interest is monotone in the payment date, and it is
never negative, for records differing only in their parsed payment date. -/
theorem c10_interest_monotone (sm : SectionMap) (r1 r2 : Row) (t dd p1 p2 : Date)
    (hpr : r1.principal_amount = r2.principal_amount)
    (hsec : r1.tax_code_section = r2.tax_code_section)
    (htr : r1.date_of_transaction = r2.date_of_transaction)
    (hde : r1.date_of_tax_deduction = r2.date_of_tax_deduction)
    (ht : to_date r1.date_of_transaction = some t)
    (hd : to_date r1.date_of_tax_deduction = some dd)
    (hp1 : to_date r1.date_of_tax_payment = some p1)
    (hp2 : to_date r2.date_of_tax_payment = some p2)
    (hdd : ¬(dd.month = 3 ∧ dd.day = 31))
    (hne : ¬(t.month = 12 ∧ t.year = 9999))
    (hprin : 0 ≤ r1.principal_amount)
    (hrate : 0 ≤ rate_for sm r1.tax_code_section)
    (hk : p1.key ≤ p2.key) :
    ∃ i1 i2 : ℚ, calc_interest sm r1 = some i1 ∧ calc_interest sm r2 = some i2 ∧
      0 ≤ i1 ∧ i1 ≤ i2 := by
  have hv_t := to_date_valid ht
  have hv_p1 := to_date_valid hp1
  have hv_p2 := to_date_valid hp2
  have htds : 0 ≤ r1.principal_amount * rate_for sm r1.tax_code_section :=
    mul_nonneg hprin hrate
  have ht2 : to_date r2.date_of_transaction = some t := htr ▸ ht
  have hd2 : to_date r2.date_of_tax_deduction = some dd := hde ▸ hd
  have e1 := @calc_interest_parsed sm r1 t dd p1 ht hd hp1
  have e2 : calc_interest sm r2 =
      calc_interest_dates sm r1.principal_amount r1.tax_code_section t dd p2 := by
    rw [@calc_interest_parsed sm r2 t dd p2 ht2 hd2 hp2, ← hpr, ← hsec]
  by_cases hON2 : p2.key ≤ (deadlineOf t).key
  · have hON1 : p1.key ≤ (deadlineOf t).key := le_trans hk hON2
    exact ⟨0, 0, e1.trans (calc_interest_dates_ontime hv_t hne hON1),
      e2.trans (calc_interest_dates_ontime hv_t hne hON2), le_refl 0, le_refl 0⟩
  · have g2 := @calc_interest_dates_general sm r1.principal_amount r1.tax_code_section
      t dd p2 hv_t hv_p2 hON2 hdd
    by_cases hON1 : p1.key ≤ (deadlineOf t).key
    · refine ⟨0, _, e1.trans (calc_interest_dates_ontime hv_t hne hON1),
        e2.trans g2, le_refl 0, ?_⟩
      exact round2_nonneg (general_expr_nonneg sm r1.principal_amount
        r1.tax_code_section t dd p2 htds)
    · have g1 := @calc_interest_dates_general sm r1.principal_amount r1.tax_code_section
        t dd p1 hv_t hv_p1 hON1 hdd
      refine ⟨_, _, e1.trans g1, e2.trans g2, ?_, ?_⟩
      · exact round2_nonneg (general_expr_nonneg sm r1.principal_amount
          r1.tax_code_section t dd p1 htds)
      · apply round2_mono
        have hmono := month_index_mono hv_p1 hv_p2 hk
        have hm : (max ((p1.year - dd.year) * 12 + (p1.month - dd.month) + 1) 0 : ℤ) ≤
            max ((p2.year - dd.year) * 12 + (p2.month - dd.month) + 1) 0 := by omega
        have hmq : ((max ((p1.year - dd.year) * 12 + (p1.month - dd.month) + 1) 0 : ℤ) : ℚ) ≤
            ((max ((p2.year - dd.year) * 12 + (p2.month - dd.month) + 1) 0 : ℤ) : ℚ) := by
          exact_mod_cast hm
        have c2 : 0 ≤ r1.principal_amount * rate_for sm r1.tax_code_section * (3 / 200) :=
          mul_nonneg htds (by norm_num)
        have := mul_le_mul_of_nonneg_left hmq c2
        linarith

theorem c10_interest_monotone_witness :
    ∃ i1 i2 : ℚ, calc_interest SM_TEST rowC10a = some i1 ∧
      calc_interest SM_TEST rowC10b = some i2 ∧ 0 ≤ i1 ∧ i1 ≤ i2 :=
  c10_interest_monotone SM_TEST rowC10a rowC10b ⟨2025, 2, 10⟩ ⟨2025, 2, 25⟩
    ⟨2025, 3, 8⟩ ⟨2025, 5, 10⟩ rfl rfl rfl rfl
    (by decide) (by decide) (by decide) (by decide) (by decide) (by decide)
    (by rw [show rowC10a.principal_amount = (150000 : ℚ) from rfl]; norm_num)
    (by rw [show rate_for SM_TEST rowC10a.tax_code_section = 1 / 10 from rfl]; norm_num)
    (by decide)

end TdsAi
